import Mathlib

/-!
Verification of the alerts_export repository: a shallow embedding of the
SSH-tunnel forwarding loop and the collect/restore document-transfer logic
of `collect_alerts-reports.py` and `restore_alerts-reports.py`, with
theorems checking the natural-language specification against the code.

Conventions of the embedding:
* JSON values are the inductive `Json`; Python dicts become association
  lists (parsed JSON objects have unique keys, so first-match lookup agrees
  with Python's `dict.get`).
* Python truthiness (`if not x`, `all([...])`) is `jsonTruthy` / `optTruthy`.
* Network I/O is an oracle parameter: an HTTP PUT's success is a function
  `HttpPut → Bool`; an HTTP GET's outcome is an `Option HttpResponse`
  (`none` = a raised `requests.exceptions.RequestException`).
* Bytes are `Nat`s; socket streams are `List Nat`.
-/

/-- JSON value, as produced by Python's `json.load`. -/
inductive Json where
  | null
  | bool (b : Bool)
  | num (n : Int)
  | str (s : String)
  | arr (items : List Json)
  | obj (fields : List (String × Json))

/-- `dict.get(key)` on a parsed JSON object: first matching key (parsed
objects have unique keys), `none` when absent. -/
def jlookup (key : String) : List (String × Json) → Option Json
  | [] => none
  | (k, v) :: rest => if k = key then some v else jlookup key rest

/-- Python truthiness of a JSON value: `None`, `False`, `0`, `""`, `[]`,
`{}` are falsy, everything else truthy. -/
def jsonTruthy : Json → Bool
  | .null => false
  | .bool b => b
  | .num n => decide (n ≠ 0)
  | .str s => decide (s ≠ "")
  | .arr items => !items.isEmpty
  | .obj fields => !fields.isEmpty

/-- Truthiness of a `dict.get` result: a missing key yields Python `None`,
which is falsy. -/
def optTruthy : Option Json → Bool
  | none => false
  | some j => jsonTruthy j

/-- One HTTP PUT issued by `_restore_single_item`:
`PUT http://localhost:<port>/<index>/_doc/<id>` with body `source`. -/
structure HttpPut where
  index : Json
  docId : Json
  source : Json

/-- The observable part of an HTTP response to the collect GET:
status code, whether the `content-type` header starts with
`application/json`, and the parsed JSON body (`none` = body not valid
JSON, so `response.json()` raises). -/
structure HttpResponse where
  status : Nat
  contentTypeJson : Bool
  body : Option Json

/-- Outcome of the tunnel-readiness probe `requests.get("http://localhost:<local_port>")`:
either a transport-level HTTP response (with any status code), a
`ConnectionError`, a `Timeout`, or some other exception. -/
inductive ProbeOutcome where
  | response (status : Nat)
  | connError
  | timeout
  | otherError

/-- `all(results.values())` followed by `sys.exit(0)` / `sys.exit(1)` in
both scripts' `main`. -/
def exitCode (results : List Bool) : Nat :=
  if results.all (fun b => b) then 0 else 1

namespace Collect

/-! ## `collect_alerts-reports.py` -/

/-- State of one forwarded connection inside `_handle_tunnel_connection`:
the bytes each endpoint will deliver before its peer closes
(`clientIn` for the local socket, `chanIn` for the SSH channel), the bytes
already written to each side, and whether the loop is still running. -/
structure FwdState where
  clientIn : List Nat
  chanIn : List Nat
  toChan : List Nat
  toClient : List Nat
  active : Bool

/-- The `if client_socket in ready:` block of the duplex loop:
`data = client_socket.recv(4096)`; an empty read breaks the loop,
otherwise `channel.send(data)`. -/
def clientPhase (s : FwdState) (clientReady : Bool) : FwdState :=
  if clientReady = false then s
  else if (s.clientIn.take 4096).isEmpty then { s with active := false }
  else { s with clientIn := s.clientIn.drop 4096,
                toChan := s.toChan ++ s.clientIn.take 4096 }

/-- The `if channel in ready:` block: reached only when the client phase
did not break; `data = channel.recv(4096)`; empty read breaks, otherwise
`client_socket.send(data)`. -/
def chanPhase (s : FwdState) (chanReady : Bool) : FwdState :=
  if (chanReady && s.active) = false then s
  else if (s.chanIn.take 4096).isEmpty then { s with active := false }
  else { s with chanIn := s.chanIn.drop 4096,
                toClient := s.toClient ++ s.chanIn.take 4096 }

/-- One iteration of the `while True` duplex loop of
`_handle_tunnel_connection`: `select` reports which endpoints are
readable (`clientReady`, `chanReady`); no readiness is the 1-second
liveness tick (`if not ready: continue`). -/
def forwardStep (s : FwdState) (clientReady chanReady : Bool) : FwdState :=
  if s.active = false then s
  else chanPhase (clientPhase s clientReady) chanReady

/-- Run the duplex loop over a schedule of `select` readiness outcomes. -/
def runForward (s : FwdState) : List (Bool × Bool) → FwdState
  | [] => s
  | (c, h) :: rest => runForward (forwardStep s c h) rest

/-- Initial forwarder state: `a` is the byte sequence the local client
will send before closing, `b` the byte sequence the channel will send. -/
def mkFwdState (a b : List Nat) : FwdState :=
  ⟨a, b, [], [], true⟩

/-- Outcome of one `server_socket.accept()` in `_tunnel_worker`:
a connection, a `socket.timeout` (the bounded 1-second wait elapsing), or
any other exception. -/
inductive AcceptEvent where
  | conn
  | timeout
  | err

/-- The `while self.tunnel_running:` accept loop of `_tunnel_worker`.
Each list entry pairs the value of `self.tunnel_running` read at the loop
head with the outcome of that iteration's `accept()`. Returns the number
of forwarder threads spawned. A connection spawns a forwarder and loops;
`socket.timeout` hits `continue`; any other exception is logged (when the
running flag is still set) and then hits `break`. -/
def workerLoop : List (Bool × AcceptEvent) → Nat → Nat
  | [], spawned => spawned
  | (running, e) :: rest, spawned =>
    if running = false then spawned
    else
      match e with
      | .conn => workerLoop rest (spawned + 1)
      | .timeout => workerLoop rest spawned
      | .err => spawned

/-- Outcome of the `paramiko` SSH connect phase of `create_ssh_tunnel`:
success, `AuthenticationException`, `SSHException`, `socket.error`, or any
other exception. -/
inductive SshPhase where
  | ok
  | authError
  | sshError
  | socketError
  | otherError

/-- `create_ssh_tunnel` of the collect script, as a function of the SSH
connect outcome and the readiness-probe outcome. Returns
(setup succeeded, `cleanup_tunnel` was called). Any transport-level HTTP
response from the probe — any status — returns success; `ConnectionError`,
`Timeout` and other probe exceptions each call `cleanup_tunnel` and
return failure; SSH connect failures return failure without probing. -/
def create_ssh_tunnel (ssh : SshPhase) (probe : ProbeOutcome) : Bool × Bool :=
  match ssh with
  | .ok =>
    match probe with
    | .response _ => (true, false)
    | .connError => (false, true)
    | .timeout => (false, true)
    | .otherError => (false, true)
  | _ => (false, false)

/-- The tunnel-session fields of `SSHTunnelCollector` touched by
`cleanup_tunnel`: the running flag, whether `tunnel_server` is set,
the `tunnel_thread` field (`none` = `None`, `some alive` = a thread
object whose `is_alive()` currently returns `alive`), and whether
`ssh_client` is set. -/
structure TunnelState where
  tunnel_running : Bool
  tunnel_server : Bool
  tunnel_thread : Option Bool
  ssh_client : Bool

/-- `cleanup_tunnel` of the collect script: clears the running flag,
closes and clears `tunnel_server`, joins and clears `tunnel_thread` only
when it is set *and* alive (a dead thread object is left in place), and
closes and clears `ssh_client`. A thread left in place is dead and stays
dead, so its `is_alive()` stays `false`. -/
def cleanup_tunnel (s : TunnelState) : TunnelState :=
  { tunnel_running := false
    tunnel_server := false
    tunnel_thread :=
      match s.tunnel_thread with
      | some true => none
      | some false => some false
      | none => none
    ssh_client := false }

/-- `_execute_request`: one `requests.get` through the tunnel
(`resp = none` models a raised `RequestException`), then
`raise_for_status()` (4xx/5xx raise, caught, returns failure), then the
response is written to the output file — parsed and pretty-printed when
the content type is JSON (an unparseable body raises `JSONDecodeError`,
caught, returns failure), raw text otherwise. Returns
(success, JSON envelope written to the file, if any). No field of the
envelope — in particular no `hits` key — is ever inspected. -/
def execute_request (resp : Option HttpResponse) : Bool × Option Json :=
  match resp with
  | none => (false, none)
  | some r =>
    if 400 ≤ r.status then (false, none)
    else
      match r.contentTypeJson, r.body with
      | true, some j => (true, some j)
      | true, none => (false, none)
      | false, _ => (true, none)

/-- Endpoint queried by `collect_reports`. -/
def reportsEndpoint : String :=
  "/vrm-scheduled-report-definition-vrm-ty-vrm-scheduled-report-definition/_search"

/-- Endpoint queried by `collect_alerts`. -/
def alertsEndpoint : String :=
  "/rt-alert-def-vrm-ty-rt-alert-def-vrm/_search"

/-- `collect_all`: if `create_ssh_tunnel()` failed, return
`{'reports': False, 'alerts': False}` at once; otherwise run
`collect_reports` then `collect_alerts`, each issuing exactly one GET to
its endpoint. The second component records the endpoints actually
requested. -/
def collect_all (tunnelOk : Bool) (reportsResp alertsResp : Option HttpResponse) :
    (Bool × Bool) × List String :=
  if tunnelOk = false then ((false, false), [])
  else (((execute_request reportsResp).1, (execute_request alertsResp).1),
        [reportsEndpoint, alertsEndpoint])

/-- Exit-code decision of the collect script's `main`:
`sys.exit(0)` when `all(results.values())`, else `sys.exit(1)`. -/
def mainExit (tunnelOk : Bool) (reportsResp alertsResp : Option HttpResponse) : Nat :=
  exitCode [(collect_all tunnelOk reportsResp alertsResp).1.1,
            (collect_all tunnelOk reportsResp alertsResp).1.2]

end Collect

namespace Restore

/-! ## `restore_alerts-reports.py` -/

/-- Result of `_restore_single_item` on one element of the hits list:
`ok success reqs` is a normal return (`reqs` the PUTs issued, at most
one); `raised` is the path where the element is not a dict, `item.get`
raises `AttributeError`, and the `except` handler's log f-string then
raises `UnboundLocalError` because `doc_id` was never assigned — the
exception propagates to the caller. -/
inductive ItemResult where
  | ok (success : Bool) (reqs : List HttpPut)
  | raised

/-- `_restore_single_item`: extract `_index`, `_id`, `_source` with
`item.get`; if `not all([index, doc_id, source])` (Python truthiness)
return failure without any request; otherwise issue one PUT whose success
is decided by the network oracle `net` (which also absorbs
`raise_for_status` and response parsing). A non-dict item raises (see
`ItemResult.raised`). -/
def restoreSingleItem (net : HttpPut → Bool) (item : Json) : ItemResult :=
  match item with
  | .obj fields =>
    let index := jlookup "_index" fields
    let doc_id := jlookup "_id" fields
    let source := jlookup "_source" fields
    if !(optTruthy index && optTruthy doc_id && optTruthy source) then
      .ok false []
    else
      .ok (net ⟨index.getD .null, doc_id.getD .null, source.getD .null⟩)
          [⟨index.getD .null, doc_id.getD .null, source.getD .null⟩]
  | _ => .raised

/-- Aggregate outcome of `restore_from_file`: the returned boolean
(`failure_count == 0`), the `success_count` / `failure_count` tallies,
and the PUT requests issued. -/
structure RestoreResult where
  success : Bool
  succeeded : Nat
  failed : Nat
  requests : List HttpPut

/-- The `for item in hits:` loop of `restore_from_file`, threading the
`success_count` / `failure_count` tallies and the requests issued. When
`_restore_single_item` raises, the file-level `except Exception` handler
returns `False` immediately: the remaining items are never attempted and
the tallies are discarded. -/
def restoreLoop (net : HttpPut → Bool) :
    List Json → Nat → Nat → List HttpPut → RestoreResult
  | [], s, f, reqs => ⟨f == 0, s, f, reqs⟩
  | item :: rest, s, f, reqs =>
    match restoreSingleItem net item with
    | .ok true r => restoreLoop net rest (s + 1) f (reqs ++ r)
    | .ok false r => restoreLoop net rest s (f + 1) (reqs ++ r)
    | .raised => ⟨false, s, f, reqs⟩

/-- `restore_from_file` on the parsed JSON envelope (file reading and
JSON parsing happen before this logic; a parse failure returns `False`
upstream of it). `'hits' not in json_data` is a format error returning
`False`; `json_data.get('hits', {}).get('hits', [])` raises
`AttributeError` (caught by the file-level handler, `False`) when the
`hits` value is not a dict; a falsy hits list returns `True` with nothing
restored; a truthy non-list hits value ends in the file-level handler
(`False`, no request) whichever way iteration fails; otherwise the items
are processed by `restoreLoop` and the result is `failure_count == 0`.
A non-dict top level also ends in `False` with no request, through the
membership test or the `AttributeError` path. -/
def restore_from_file (net : HttpPut → Bool) (j : Json) : RestoreResult :=
  match j with
  | .obj fields =>
    match jlookup "hits" fields with
    | none => ⟨false, 0, 0, []⟩
    | some hitsVal =>
      match hitsVal with
      | .obj hf =>
        match (jlookup "hits" hf).getD (.arr []) with
        | .arr items =>
          if items.isEmpty then ⟨true, 0, 0, []⟩
          else restoreLoop net items 0 0 []
        | other =>
          if jsonTruthy other = false then ⟨true, 0, 0, []⟩
          else ⟨false, 0, 0, []⟩
      | _ => ⟨false, 0, 0, []⟩
  | _ => ⟨false, 0, 0, []⟩

/-- `create_ssh_tunnel` of the restore script, as a function of whether
the `ssh`/`sshpass` subprocess could be started, whether it was still
alive after the 3-second settle delay, and the readiness-probe outcome.
Returns (setup succeeded, `cleanup_tunnel` was called). The probe's
`except requests.exceptions.RequestException` covers both connection
errors and timeouts (cleanup, failure); any transport-level response —
any status — is success. -/
def create_ssh_tunnel (procStarted procAlive : Bool) (probe : ProbeOutcome) :
    Bool × Bool :=
  if procStarted = false then (false, false)
  else if procAlive = false then (false, false)
  else
    match probe with
    | .response _ => (true, false)
    | .connError => (false, true)
    | .timeout => (false, true)
    | .otherError => (false, false)

/-- `cleanup_tunnel` of the restore script on the `tunnel_process` field
(`none` = `None`, `some running` = a process whose `poll()` reports it
still running). Only a set *and still-running* process is terminated and
the field cleared; a set but already-exited process is left in place (and
stays exited). -/
def cleanup_tunnel : Option Bool → Option Bool
  | some true => none
  | some false => some false
  | none => none

/-- Whether the session still has a live tunnel process after cleanup. -/
def processRunning : Option Bool → Bool
  | some true => true
  | _ => false

/-- `restore_all`: if `create_ssh_tunnel()` failed, return
`{'reports': False, 'alerts': False}` at once; otherwise restore the
alerts file then the reports file. The second component records all PUT
requests issued. -/
def restore_all (tunnelOk : Bool) (net : HttpPut → Bool)
    (alertsFile reportsFile : Json) : (Bool × Bool) × List HttpPut :=
  if tunnelOk = false then ((false, false), [])
  else
    ((( restore_from_file net alertsFile).success,
      (restore_from_file net reportsFile).success),
     (restore_from_file net alertsFile).requests ++
      (restore_from_file net reportsFile).requests)

/-- Exit-code decision of the restore script's `main` for the default
restore-all flow: `sys.exit(0)` when `all(results.values())`, else
`sys.exit(1)`. -/
def mainExit (tunnelOk : Bool) (net : HttpPut → Bool)
    (alertsFile reportsFile : Json) : Nat :=
  exitCode [(restore_all tunnelOk net alertsFile reportsFile).1.1,
            (restore_all tunnelOk net alertsFile reportsFile).1.2]

end Restore

/-! ## Helper lemmas: the duplex forwarding loop -/

theorem clientPhase_toChan (s : Collect.FwdState) (c : Bool) :
    (Collect.clientPhase s c).toChan ++ (Collect.clientPhase s c).clientIn
      = s.toChan ++ s.clientIn := by
  unfold Collect.clientPhase
  split
  · rfl
  · split
    · rfl
    · show (s.toChan ++ s.clientIn.take 4096) ++ s.clientIn.drop 4096
        = s.toChan ++ s.clientIn
      rw [List.append_assoc, List.take_append_drop]

theorem clientPhase_toClient (s : Collect.FwdState) (c : Bool) :
    (Collect.clientPhase s c).toClient = s.toClient := by
  unfold Collect.clientPhase
  split
  · rfl
  · split <;> rfl

theorem clientPhase_chanIn (s : Collect.FwdState) (c : Bool) :
    (Collect.clientPhase s c).chanIn = s.chanIn := by
  unfold Collect.clientPhase
  split
  · rfl
  · split <;> rfl

theorem chanPhase_toClient (s : Collect.FwdState) (h : Bool) :
    (Collect.chanPhase s h).toClient ++ (Collect.chanPhase s h).chanIn
      = s.toClient ++ s.chanIn := by
  unfold Collect.chanPhase
  split
  · rfl
  · split
    · rfl
    · show (s.toClient ++ s.chanIn.take 4096) ++ s.chanIn.drop 4096
        = s.toClient ++ s.chanIn
      rw [List.append_assoc, List.take_append_drop]

theorem chanPhase_toChan (s : Collect.FwdState) (h : Bool) :
    (Collect.chanPhase s h).toChan = s.toChan := by
  unfold Collect.chanPhase
  split
  · rfl
  · split <;> rfl

theorem chanPhase_clientIn (s : Collect.FwdState) (h : Bool) :
    (Collect.chanPhase s h).clientIn = s.clientIn := by
  unfold Collect.chanPhase
  split
  · rfl
  · split <;> rfl

theorem forwardStep_fidelity (s : Collect.FwdState) (c h : Bool) :
    (Collect.forwardStep s c h).toChan ++ (Collect.forwardStep s c h).clientIn
        = s.toChan ++ s.clientIn ∧
    (Collect.forwardStep s c h).toClient ++ (Collect.forwardStep s c h).chanIn
        = s.toClient ++ s.chanIn := by
  unfold Collect.forwardStep
  split
  · exact ⟨rfl, rfl⟩
  · constructor
    · rw [chanPhase_toChan, chanPhase_clientIn, clientPhase_toChan]
    · rw [chanPhase_toClient, clientPhase_toClient, clientPhase_chanIn]

theorem runForward_fidelity (events : List (Bool × Bool)) :
    ∀ s : Collect.FwdState,
      (Collect.runForward s events).toChan ++ (Collect.runForward s events).clientIn
          = s.toChan ++ s.clientIn ∧
      (Collect.runForward s events).toClient ++ (Collect.runForward s events).chanIn
          = s.toClient ++ s.chanIn := by
  induction events with
  | nil => intro s; exact ⟨rfl, rfl⟩
  | cons ev rest ih =>
    intro s
    rcases ev with ⟨c, h⟩
    have h1 := forwardStep_fidelity s c h
    have h2 := ih (Collect.forwardStep s c h)
    exact ⟨h2.1.trans h1.1, h2.2.trans h1.2⟩

theorem forwardStep_inactive (s : Collect.FwdState) (c h : Bool)
    (hs : s.active = false) : Collect.forwardStep s c h = s := by
  simp [Collect.forwardStep, hs]

theorem runForward_inactive (events : List (Bool × Bool)) :
    ∀ s : Collect.FwdState, s.active = false → Collect.runForward s events = s := by
  induction events with
  | nil => intro s _; rfl
  | cons ev rest ih =>
    intro s hs
    rcases ev with ⟨c, h⟩
    show Collect.runForward (Collect.forwardStep s c h) rest = s
    rw [forwardStep_inactive s c h hs]
    exact ih s hs

theorem forwardStep_client_eof (s : Collect.FwdState) (hact : s.active = true)
    (hnil : s.clientIn = []) :
    Collect.forwardStep s true false = { s with active := false } := by
  simp [Collect.forwardStep, Collect.clientPhase, Collect.chanPhase, hact, hnil]

theorem forwardStep_client_data (s : Collect.FwdState) (hact : s.active = true)
    (hne : s.clientIn ≠ []) :
    Collect.forwardStep s true false =
      { s with clientIn := s.clientIn.drop 4096,
               toChan := s.toChan ++ s.clientIn.take 4096 } := by
  have hemp : (s.clientIn.take 4096).isEmpty = false := by
    simp [List.isEmpty_iff, List.take_eq_nil_iff, hne]
  simp [Collect.forwardStep, Collect.clientPhase, Collect.chanPhase, hact, hemp]

theorem forwardStep_chan_eof (s : Collect.FwdState) (hact : s.active = true)
    (hnil : s.chanIn = []) :
    Collect.forwardStep s false true = { s with active := false } := by
  simp [Collect.forwardStep, Collect.clientPhase, Collect.chanPhase, hact, hnil]

theorem forwardStep_chan_data (s : Collect.FwdState) (hact : s.active = true)
    (hne : s.chanIn ≠ []) :
    Collect.forwardStep s false true =
      { s with chanIn := s.chanIn.drop 4096,
               toClient := s.toClient ++ s.chanIn.take 4096 } := by
  have hemp : (s.chanIn.take 4096).isEmpty = false := by
    simp [List.isEmpty_iff, List.take_eq_nil_iff, hne]
  simp [Collect.forwardStep, Collect.clientPhase, Collect.chanPhase, hact, hemp]

theorem runForward_drain :
    ∀ (n : Nat) (s : Collect.FwdState), s.active = true → s.clientIn.length ≤ n →
      (Collect.runForward s (List.replicate n (true, false))).toChan
        = s.toChan ++ s.clientIn := by
  intro n
  induction n with
  | zero =>
    intro s hact hlen
    have hnil : s.clientIn = [] := List.eq_nil_of_length_eq_zero (Nat.le_zero.mp hlen)
    show s.toChan = s.toChan ++ s.clientIn
    rw [hnil, List.append_nil]
  | succ n ih =>
    intro s hact hlen
    rw [List.replicate_succ]
    by_cases hc : s.clientIn = []
    · show (Collect.runForward (Collect.forwardStep s true false)
        (List.replicate n (true, false))).toChan = s.toChan ++ s.clientIn
      rw [forwardStep_client_eof s hact hc,
          runForward_inactive (List.replicate n (true, false)) _ rfl]
      show s.toChan = s.toChan ++ s.clientIn
      rw [hc, List.append_nil]
    · show (Collect.runForward (Collect.forwardStep s true false)
        (List.replicate n (true, false))).toChan = s.toChan ++ s.clientIn
      rw [forwardStep_client_data s hact hc]
      have hlen2 : (s.clientIn.drop 4096).length ≤ n := by
        have h1 : 1 ≤ s.clientIn.length := List.length_pos.mpr hc
        have h2 : (s.clientIn.drop 4096).length = s.clientIn.length - 4096 := by simp
        omega
      have key := ih { s with clientIn := s.clientIn.drop 4096, toChan := s.toChan ++ s.clientIn.take 4096 } hact hlen2
      rw [key]
      show (s.toChan ++ s.clientIn.take 4096) ++ s.clientIn.drop 4096
        = s.toChan ++ s.clientIn
      rw [List.append_assoc, List.take_append_drop]

/-- Claim C1: the ConnectionForwarder duplex loop relays data unmodified and
in order per direction. Over any schedule of `select` readiness outcomes,
the bytes written to the channel followed by the client bytes not yet read
equal exactly the client's input (and symmetrically for the other
direction); a schedule of enough client-readiness ticks delivers the whole
client input; whenever an endpoint is readable, the loop reads a chunk of
up to 4096 bytes and appends exactly those bytes to the other endpoint's
output; a zero-length read from either side terminates the loop. -/
theorem C1_duplex_relay (a b : List Nat) (events : List (Bool × Bool)) :
    (Collect.runForward (Collect.mkFwdState a b) events).toChan ++
      (Collect.runForward (Collect.mkFwdState a b) events).clientIn = a ∧
    (Collect.runForward (Collect.mkFwdState a b) events).toClient ++
      (Collect.runForward (Collect.mkFwdState a b) events).chanIn = b ∧
    (Collect.runForward (Collect.mkFwdState a b)
      (List.replicate a.length (true, false))).toChan = a ∧
    (∀ s : Collect.FwdState, s.active = true → s.clientIn ≠ [] →
      Collect.forwardStep s true false =
        { s with clientIn := s.clientIn.drop 4096,
                 toChan := s.toChan ++ s.clientIn.take 4096 } ∧
      (s.clientIn.take 4096).length ≤ 4096) ∧
    (∀ s : Collect.FwdState, s.active = true → s.chanIn ≠ [] →
      Collect.forwardStep s false true =
        { s with chanIn := s.chanIn.drop 4096,
                 toClient := s.toClient ++ s.chanIn.take 4096 } ∧
      (s.chanIn.take 4096).length ≤ 4096) ∧
    (∀ s : Collect.FwdState, s.active = true → s.clientIn = [] →
      Collect.forwardStep s true false = { s with active := false }) ∧
    (∀ s : Collect.FwdState, s.active = true → s.chanIn = [] →
      Collect.forwardStep s false true = { s with active := false }) := by
  refine ⟨(runForward_fidelity events (Collect.mkFwdState a b)).1,
          (runForward_fidelity events (Collect.mkFwdState a b)).2,
          runForward_drain a.length (Collect.mkFwdState a b) rfl (Nat.le_refl _),
          ?_, ?_, forwardStep_client_eof, forwardStep_chan_eof⟩
  · intro s hact hne
    refine ⟨forwardStep_client_data s hact hne, ?_⟩
    simp [List.length_take]
  · intro s hact hne
    refine ⟨forwardStep_chan_data s hact hne, ?_⟩
    simp [List.length_take]

/-- Witness for C1 at concrete inputs. -/
theorem C1_duplex_relay_witness :
    (Collect.runForward (Collect.mkFwdState [1, 2] [9]) [(true, true)]).toChan ++
      (Collect.runForward (Collect.mkFwdState [1, 2] [9]) [(true, true)]).clientIn
        = [1, 2] ∧
    Collect.forwardStep ⟨[7], [3], [], [], true⟩ true false
      = ⟨[], [3], [7], [], true⟩ ∧
    Collect.forwardStep ⟨[], [3], [], [], true⟩ true false
      = ⟨[], [3], [], [], false⟩ := by
  have h := C1_duplex_relay [1, 2] [9] [(true, true)]
  exact ⟨h.1,
         (h.2.2.2.1 ⟨[7], [3], [], [], true⟩ rfl (by decide)).1,
         h.2.2.2.2.2.1 ⟨[], [3], [], [], true⟩ rfl rfl⟩

/-! ## Helper lemmas: restore accounting -/

theorem restoreSingleItem_missing (net : HttpPut → Bool) (fs : List (String × Json))
    (hmiss : jlookup "_index" fs = none ∨ jlookup "_id" fs = none ∨
      jlookup "_source" fs = none) :
    Restore.restoreSingleItem net (Json.obj fs) = .ok false [] := by
  rcases hmiss with h | h | h <;> simp [Restore.restoreSingleItem, h, optTruthy]

theorem restoreSingleItem_obj_ne (net : HttpPut → Bool) (g : List (String × Json)) :
    Restore.restoreSingleItem net (Json.obj g) ≠ Restore.ItemResult.raised := by
  cases h : (optTruthy (jlookup "_index" g) && optTruthy (jlookup "_id" g) &&
      optTruthy (jlookup "_source" g)) <;>
    simp [Restore.restoreSingleItem, h]

theorem restoreLoop_counts (net : HttpPut → Bool) :
    ∀ (items : List Json) (s f : Nat) (reqs : List HttpPut),
      (∀ j ∈ items, ∃ g, j = Json.obj g) →
      (Restore.restoreLoop net items s f reqs).succeeded +
        (Restore.restoreLoop net items s f reqs).failed = s + f + items.length := by
  intro items
  induction items with
  | nil => intro s f reqs _; simp [Restore.restoreLoop]
  | cons item rest ih =>
    intro s f reqs h
    obtain ⟨g, rfl⟩ := h item (List.mem_cons_self _ _)
    have hrest : ∀ j ∈ rest, ∃ g, j = Json.obj g :=
      fun j hj => h j (List.mem_cons_of_mem _ hj)
    cases hstep : Restore.restoreSingleItem net (Json.obj g) with
    | raised => exact absurd hstep (restoreSingleItem_obj_ne net g)
    | ok b r =>
      cases b
      · simp only [Restore.restoreLoop, hstep]
        rw [ih _ _ _ hrest]
        simp [List.length_cons]
        omega
      · simp only [Restore.restoreLoop, hstep]
        rw [ih _ _ _ hrest]
        simp [List.length_cons]
        omega

/-- Claim C2 (code bug): the claim says restore attempts every document in
the hits list, a per-item failure never aborting the batch. That is the
clear intent of `_restore_single_item`'s `except` handlers, but their log
f-strings reference `doc_id`, which is unbound when `item.get` itself
raises (any non-dict hits entry), so the handler raises
`UnboundLocalError`; the file-level handler catches it and returns
`False`, aborting the remaining items. First conjunct: a hits list
`[5, <valid doc>]` returns overall failure with zero attempts counted and
no request ever issued for the valid document. Second conjunct: for the
claim's own scenario — 3 valid documents and 1 entry missing `_id`, all
dicts — the code behaves as claimed: 3 successes, 1 failure, overall
failure, exactly 3 PUTs. -/
theorem C2_handler_abort_eval :
    Restore.restore_from_file (fun _ => true)
      (Json.obj [("hits", Json.obj [("hits", Json.arr
        [Json.num 5,
         Json.obj [("_index", Json.str "i"), ("_id", Json.str "d"),
                   ("_source", Json.obj [("k", Json.num 1)])]])])])
      = ⟨false, 0, 0, []⟩ ∧
    Restore.restore_from_file (fun _ => true)
      (Json.obj [("hits", Json.obj [("hits", Json.arr
        [Json.obj [("_index", Json.str "i1"), ("_id", Json.str "d1"),
                   ("_source", Json.obj [("v", Json.num 1)])],
         Json.obj [("_index", Json.str "i2"), ("_id", Json.str "d2"),
                   ("_source", Json.obj [("v", Json.num 2)])],
         Json.obj [("_index", Json.str "i3"), ("_id", Json.str "d3"),
                   ("_source", Json.obj [("v", Json.num 3)])],
         Json.obj [("_index", Json.str "i4"),
                   ("_source", Json.obj [("v", Json.num 4)])]])])])
      = ⟨false, 3, 1,
         [⟨Json.str "i1", Json.str "d1", Json.obj [("v", Json.num 1)]⟩,
          ⟨Json.str "i2", Json.str "d2", Json.obj [("v", Json.num 2)]⟩,
          ⟨Json.str "i3", Json.str "d3", Json.obj [("v", Json.num 3)]⟩]⟩ :=
  ⟨rfl, rfl⟩

/-- Claim C3: a document (JSON object) missing `_index`, `_id` or
`_source` is skipped, counted as a failure, and no HTTP request is issued
for it; in a batch of documents every item is still processed and counted
exactly once (succeeded + failed = number of items). -/
theorem C3_missing_field_isolation (net : HttpPut → Bool) (items : List Json)
    (fs : List (String × Json))
    (hobj : ∀ j ∈ items, ∃ g, j = Json.obj g)
    (hmiss : jlookup "_index" fs = none ∨ jlookup "_id" fs = none ∨
      jlookup "_source" fs = none) :
    Restore.restoreSingleItem net (Json.obj fs) = .ok false [] ∧
    (Restore.restoreLoop net items 0 0 []).succeeded +
      (Restore.restoreLoop net items 0 0 []).failed = items.length := by
  refine ⟨restoreSingleItem_missing net fs hmiss, ?_⟩
  have h := restoreLoop_counts net items 0 0 [] hobj
  omega

/-- Witness for C3: a batch of one document missing `_id` and one valid
document; the missing-`_id` document yields failure with no request, and
both items are counted. -/
theorem C3_missing_field_isolation_witness :
    Restore.restoreSingleItem (fun _ => true)
      (Json.obj [("_index", Json.str "i"), ("_source", Json.obj [("k", Json.num 1)])])
      = .ok false [] ∧
    (Restore.restoreLoop (fun _ => true)
      [Json.obj [("_index", Json.str "i"), ("_source", Json.obj [("k", Json.num 1)])],
       Json.obj [("_index", Json.str "i"), ("_id", Json.str "d"),
                 ("_source", Json.obj [("k", Json.num 1)])]] 0 0 []).succeeded +
    (Restore.restoreLoop (fun _ => true)
      [Json.obj [("_index", Json.str "i"), ("_source", Json.obj [("k", Json.num 1)])],
       Json.obj [("_index", Json.str "i"), ("_id", Json.str "d"),
                 ("_source", Json.obj [("k", Json.num 1)])]] 0 0 []).failed = 2 := by
  have h := C3_missing_field_isolation (fun _ => true)
    [Json.obj [("_index", Json.str "i"), ("_source", Json.obj [("k", Json.num 1)])],
     Json.obj [("_index", Json.str "i"), ("_id", Json.str "d"),
               ("_source", Json.obj [("k", Json.num 1)])]]
    [("_index", Json.str "i"), ("_source", Json.obj [("k", Json.num 1)])]
    (by intro j hj
        simp only [List.mem_cons, List.mem_singleton] at hj
        rcases hj with rfl | rfl | h
        · exact ⟨_, rfl⟩
        · exact ⟨_, rfl⟩
        · exact absurd h (List.not_mem_nil j))
    (Or.inr (Or.inl rfl))
  exact ⟨h.1, h.2⟩

/-- Claim C10: `_restore_single_item` checks required fields with Python
truthiness (`not all([index, doc_id, source])`), so a present-but-empty
`_source` (`{}`), or an empty-string `_index` or `_id`, is treated exactly
like a missing field: counted as a failure with no HTTP request issued. -/
theorem C10_truthiness_skip (net : HttpPut → Bool) :
    Restore.restoreSingleItem net
      (Json.obj [("_index", Json.str "idx"), ("_id", Json.str "doc1"),
                 ("_source", Json.obj [])]) = .ok false [] ∧
    Restore.restoreSingleItem net
      (Json.obj [("_index", Json.str ""), ("_id", Json.str "doc1"),
                 ("_source", Json.obj [("k", Json.num 1)])]) = .ok false [] ∧
    Restore.restoreSingleItem net
      (Json.obj [("_index", Json.str "idx"), ("_id", Json.str ""),
                 ("_source", Json.obj [("k", Json.num 1)])]) = .ok false [] ∧
    Restore.restoreSingleItem net
      (Json.obj [("_index", Json.str "idx"), ("_id", Json.str "doc1"),
                 ("_source", Json.obj [])]) =
      Restore.restoreSingleItem net
        (Json.obj [("_index", Json.str "idx"), ("_id", Json.str "doc1")]) :=
  ⟨rfl, rfl, rfl, rfl⟩

/-- Counterexample to claim C4: the collect request handler never inspects
the envelope. A 200 JSON response whose top level has no `hits` key is
saved and reported as success, where the claim requires the collect
operation to report failure. -/
theorem C4_collect_no_hits_counterexample :
    Collect.execute_request (some ⟨200, true, some (Json.obj [("took", Json.num 3)])⟩)
      = (true, some (Json.obj [("took", Json.num 3)])) :=
  rfl

/-- Claim C4 as amended: collect saves any parseable 2xx/3xx JSON response
unchanged and reports success regardless of whether it has a `hits` key;
the missing-`hits` format check is performed by `restore_from_file`, which
reports failure for such an envelope without issuing any request (and
without retrying). -/
theorem C4_format_check_at_restore (r : HttpResponse) (j : Json)
    (hs : r.status < 400) (hct : r.contentTypeJson = true) (hb : r.body = some j)
    (fields : List (String × Json)) (hh : jlookup "hits" fields = none)
    (net : HttpPut → Bool) :
    Collect.execute_request (some r) = (true, some j) ∧
    Restore.restore_from_file net (Json.obj fields) = ⟨false, 0, 0, []⟩ := by
  constructor
  · have h4 : ¬(400 ≤ r.status) := by omega
    simp [Collect.execute_request, h4, hct, hb]
  · simp [Restore.restore_from_file, hh]

/-- Witness for C4 as amended, at a concrete hits-free 200 envelope. -/
theorem C4_format_check_at_restore_witness :
    Collect.execute_request (some ⟨200, true, some (Json.obj [("took", Json.num 7)])⟩)
      = (true, some (Json.obj [("took", Json.num 7)])) ∧
    Restore.restore_from_file (fun _ => true) (Json.obj [("took", Json.num 7)])
      = ⟨false, 0, 0, []⟩ :=
  C4_format_check_at_restore ⟨200, true, some (Json.obj [("took", Json.num 7)])⟩
    (Json.obj [("took", Json.num 7)]) (by decide) rfl rfl
    [("took", Json.num 7)] rfl (fun _ => true)

/-- Claim C5: after the settle delay, one throwaway HTTP probe decides
readiness. A connection refusal or a timeout makes tunnel setup report
failure and call `cleanup_tunnel` (teardown); any transport-level HTTP
response — whatever its status, including 4xx/5xx — makes readiness
succeed and setup return success, in both the collect script (paramiko
tunnel) and the restore script (ssh subprocess tunnel). -/
theorem C5_readiness_probe (s : Nat) :
    Collect.create_ssh_tunnel .ok (.response s) = (true, false) ∧
    Collect.create_ssh_tunnel .ok .connError = (false, true) ∧
    Collect.create_ssh_tunnel .ok .timeout = (false, true) ∧
    Restore.create_ssh_tunnel true true (.response s) = (true, false) ∧
    Restore.create_ssh_tunnel true true .connError = (false, true) ∧
    Restore.create_ssh_tunnel true true .timeout = (false, true) :=
  ⟨rfl, rfl, rfl, rfl, rfl, rfl⟩

/-- Counterexample to claim C6: in `_tunnel_worker`'s accept loop, a
non-timeout error on an individual `accept()` does *not* continue the
loop even when the stop flag is unset — the handler logs and then hits
`break`. With the running flag still `true`, an accept error followed by
an incoming connection spawns 0 forwarders, whereas the claimed
"loop continues" behaviour would spawn 1 (as the second conjunct shows
the same schedule without the error does). -/
theorem C6_accept_error_counterexample :
    Collect.workerLoop [(true, .err), (true, .conn)] 0 = 0 ∧
    Collect.workerLoop [(true, .conn)] 0 = 1 :=
  ⟨rfl, rfl⟩

/-- Claim C6 as amended: in the accept loop, only the bounded (~1s)
accept wait elapsing (`socket.timeout`) continues the loop, so the stop
flag is re-checked promptly; any other error accepting a connection is
logged (when the stop flag is unset) and terminates the loop; a cleared
stop flag terminates the loop at the next iteration; an accepted
connection spawns a forwarder and the loop continues. -/
theorem C6_accept_loop_amended (rest : List (Bool × Collect.AcceptEvent))
    (n : Nat) (e : Collect.AcceptEvent) :
    Collect.workerLoop ((true, .err) :: rest) n = n ∧
    Collect.workerLoop ((true, .timeout) :: rest) n = Collect.workerLoop rest n ∧
    Collect.workerLoop ((true, .conn) :: rest) n = Collect.workerLoop rest (n + 1) ∧
    Collect.workerLoop ((false, e) :: rest) n = n :=
  ⟨rfl, rfl, rfl, rfl⟩

/-- Claim C7: when the tunnel cannot be established, `collect_all` and
`restore_all` report every requested operation (`reports` and `alerts`)
as failed and issue no HTTP request at all — no per-endpoint GET, no
per-document PUT. -/
theorem C7_tunnel_failure_no_attempts (rr ar : Option HttpResponse)
    (net : HttpPut → Bool) (af rf : Json) :
    Collect.collect_all false rr ar = ((false, false), []) ∧
    Restore.restore_all false net af rf = ((false, false), []) :=
  ⟨rfl, rfl⟩

theorem exitCode_pair : ∀ a b : Bool,
    (exitCode [a, b] = 0 ↔ a = true ∧ b = true) ∧
    (exitCode [a, b] = 1 ↔ ¬(a = true ∧ b = true)) := by
  decide

/-- Claim C8: the process exit code is 0 iff every requested
sub-operation in the result mapping succeeded, and 1 iff any failed —
in particular it is 1 whenever the tunnel could not be established, for
both scripts. -/
theorem C8_exit_code (t : Bool) (rr ar : Option HttpResponse)
    (net : HttpPut → Bool) (af rf : Json) :
    (Collect.mainExit t rr ar = 0 ↔
      (Collect.collect_all t rr ar).1.1 = true ∧
        (Collect.collect_all t rr ar).1.2 = true) ∧
    (Collect.mainExit t rr ar = 1 ↔
      ¬((Collect.collect_all t rr ar).1.1 = true ∧
        (Collect.collect_all t rr ar).1.2 = true)) ∧
    Collect.mainExit false rr ar = 1 ∧
    (Restore.mainExit t net af rf = 0 ↔
      (Restore.restore_all t net af rf).1.1 = true ∧
        (Restore.restore_all t net af rf).1.2 = true) ∧
    (Restore.mainExit t net af rf = 1 ↔
      ¬((Restore.restore_all t net af rf).1.1 = true ∧
        (Restore.restore_all t net af rf).1.2 = true)) ∧
    Restore.mainExit false net af rf = 1 :=
  ⟨(exitCode_pair _ _).1, (exitCode_pair _ _).2, rfl,
   (exitCode_pair _ _).1, (exitCode_pair _ _).2, rfl⟩

/-- Claim C9: `cleanup_tunnel` is idempotent in both scripts. After one
call the running flag is false, the listener socket and the SSH client
are released (collect script), and no tunnel process is left running
(restore script); a second call changes nothing: close ∘ close = close
on the session state. -/
theorem C9_cleanup_idempotent (s : Collect.TunnelState) (p : Option Bool) :
    Collect.cleanup_tunnel (Collect.cleanup_tunnel s) = Collect.cleanup_tunnel s ∧
    (Collect.cleanup_tunnel s).tunnel_running = false ∧
    (Collect.cleanup_tunnel s).tunnel_server = false ∧
    (Collect.cleanup_tunnel s).ssh_client = false ∧
    Restore.cleanup_tunnel (Restore.cleanup_tunnel p) = Restore.cleanup_tunnel p ∧
    Restore.processRunning (Restore.cleanup_tunnel p) = false := by
  refine ⟨?_, rfl, rfl, rfl, ?_, ?_⟩
  · cases hth : s.tunnel_thread with
    | none => simp [Collect.cleanup_tunnel, hth]
    | some alive => cases alive <;> simp [Collect.cleanup_tunnel, hth]
  · cases p with
    | none => rfl
    | some running => cases running <;> rfl
  · cases p with
    | none => rfl
    | some running => cases running <;> rfl
